import Mathlib

/-!
Shallow embedding of the bounding-volume core of `bevy_math`
(`src/crates/bevy_math/src/bounding/*` and `src/crates/bevy_math/src/direction.rs`).

Scalars are modelled by `ℚ` (exact arithmetic in place of `f32`).  The square
root has no exact counterpart on `ℚ`, so every operation of the source that
calls `f32::sqrt` is parametrized by an explicit function `s : ℚ → ℚ` standing
for the square root; theorems that depend on the square root being exact state
that as a hypothesis at the points where the code takes roots.  Code that
panics in every build configuration (plain `assert!` / `expect`) is modelled
with `Option`, `none` standing for the panic; `debug_assert!` is debug-only and
is not modelled.
-/

namespace Bevy

/-- Exactness of the square-root stand-in `s` at the point `q`: `s q` is the
nonnegative real square root of `q` (which therefore must be a rational
square). -/
def Sok (s : ℚ → ℚ) (q : ℚ) : Prop :=
  0 ≤ s q ∧ s q * s q = q

/-- Model of `f32::copysign`: the magnitude of `q` with the sign of `sign`. -/
def copysign (q sign : ℚ) : ℚ :=
  if sign < 0 then -|q| else |q|

/-- Model of `glam::Vec2` over exact scalars. -/
structure Vec2 where
  x : ℚ
  y : ℚ
deriving DecidableEq

instance : Add Vec2 := ⟨fun a b => ⟨a.x + b.x, a.y + b.y⟩⟩

instance : Sub Vec2 := ⟨fun a b => ⟨a.x - b.x, a.y - b.y⟩⟩

instance : Neg Vec2 := ⟨fun a => ⟨-a.x, -a.y⟩⟩

instance : HMul Vec2 ℚ Vec2 := ⟨fun a c => ⟨a.x * c, a.y * c⟩⟩

instance : HDiv Vec2 ℚ Vec2 := ⟨fun a c => ⟨a.x / c, a.y / c⟩⟩

instance : Zero Vec2 := ⟨⟨0, 0⟩⟩

/-- Componentwise minimum, as `glam::Vec2::min`. -/
def Vec2.min (a b : Vec2) : Vec2 := ⟨Min.min a.x b.x, Min.min a.y b.y⟩

/-- Componentwise maximum, as `glam::Vec2::max`. -/
def Vec2.max (a b : Vec2) : Vec2 := ⟨Max.max a.x b.x, Max.max a.y b.y⟩

/-- Dot product, as `glam::Vec2::dot`. -/
def Vec2.dot (a b : Vec2) : ℚ := a.x * b.x + a.y * b.y

/-- Squared length, as `glam::Vec2::length_squared`. -/
def Vec2.length_squared (a : Vec2) : ℚ := a.dot a

/-- Length, as `glam::Vec2::length`; the square root is taken through `s`. -/
def Vec2.length (s : ℚ → ℚ) (a : Vec2) : ℚ := s a.length_squared

/-- Model of `glam::Vec3` over exact scalars. -/
structure Vec3 where
  x : ℚ
  y : ℚ
  z : ℚ
deriving DecidableEq

instance : Add Vec3 := ⟨fun a b => ⟨a.x + b.x, a.y + b.y, a.z + b.z⟩⟩

instance : Sub Vec3 := ⟨fun a b => ⟨a.x - b.x, a.y - b.y, a.z - b.z⟩⟩

instance : Neg Vec3 := ⟨fun a => ⟨-a.x, -a.y, -a.z⟩⟩

instance : HMul Vec3 ℚ Vec3 := ⟨fun a c => ⟨a.x * c, a.y * c, a.z * c⟩⟩

instance : HDiv Vec3 ℚ Vec3 := ⟨fun a c => ⟨a.x / c, a.y / c, a.z / c⟩⟩

instance : Zero Vec3 := ⟨⟨0, 0, 0⟩⟩

/-- Componentwise minimum, as `glam::Vec3::min`. -/
def Vec3.min (a b : Vec3) : Vec3 := ⟨Min.min a.x b.x, Min.min a.y b.y, Min.min a.z b.z⟩

/-- Componentwise maximum, as `glam::Vec3::max`. -/
def Vec3.max (a b : Vec3) : Vec3 := ⟨Max.max a.x b.x, Max.max a.y b.y, Max.max a.z b.z⟩

/-- Dot product, as `glam::Vec3::dot`. -/
def Vec3.dot (a b : Vec3) : ℚ := a.x * b.x + a.y * b.y + a.z * b.z

/-- Cross product, as `glam::Vec3::cross`. -/
def Vec3.cross (a b : Vec3) : Vec3 :=
  ⟨a.y * b.z - a.z * b.y, a.z * b.x - a.x * b.z, a.x * b.y - a.y * b.x⟩

/-- Squared length, as `glam::Vec3::length_squared`. -/
def Vec3.length_squared (a : Vec3) : ℚ := a.dot a

/-- Length, as `glam::Vec3::length`; the square root is taken through `s`. -/
def Vec3.length (s : ℚ → ℚ) (a : Vec3) : ℚ := s a.length_squared

/-- Squared distance between two points, as `glam::Vec3::distance_squared`. -/
def Vec3.distance_squared (a b : Vec3) : ℚ := (a - b).length_squared

/-- Normalization `v / v.length()`, as `glam::Vec3::normalize`.  Division by a
zero scalar yields the zero vector (the `ℚ` convention); the source guards the
one place this can happen with its `== Vec3::ZERO` / `!is_finite` check. -/
def Vec3.normalize (s : ℚ → ℚ) (a : Vec3) : Vec3 := a / a.length s

/-- Model of `glam::Quat` over exact scalars. -/
structure Quat where
  x : ℚ
  y : ℚ
  z : ℚ
  w : ℚ
deriving DecidableEq

/-- Rotation of a vector by a quaternion, following glam's scalar
implementation of `Quat::mul_vec3`:
`rhs * (w * w - b.dot(b)) + b * (rhs.dot(b) * 2) + b.cross(rhs) * (w * 2)`
where `b` is the vector part of the quaternion. -/
def Quat.mul_vec3 (q : Quat) (rhs : Vec3) : Vec3 :=
  let b : Vec3 := ⟨q.x, q.y, q.z⟩
  let b2 : ℚ := b.dot b
  rhs * (q.w * q.w - b2) + b * (rhs.dot b * 2) + b.cross rhs * (q.w * 2)

/-- Identity rotation quaternion. -/
def Quat.IDENTITY : Quat := ⟨0, 0, 0, 1⟩

/-- Model of `bevy_math::primitives::Circle`. -/
structure Circle where
  radius : ℚ
deriving DecidableEq

/-- Model of `bevy_math::primitives::Sphere`. -/
structure Sphere where
  radius : ℚ
deriving DecidableEq

/-- Model of `bevy_math::primitives::Cone` (base radius and total height). -/
structure Cone where
  radius : ℚ
  height : ℚ
deriving DecidableEq

/-- A 2D axis-aligned bounding box (`Aabb2d`). -/
structure Aabb2d where
  min : Vec2
  max : Vec2
deriving DecidableEq

/-- Containment test of `BoundingVolume::contains` for `Aabb2d`: every bound
of `other` lies within the corresponding bound of `self`, inclusively. -/
def Aabb2d.contains (self other : Aabb2d) : Bool :=
  decide (other.min.x ≥ self.min.x ∧ other.min.y ≥ self.min.y ∧
    other.max.x ≤ self.max.x ∧ other.max.y ≤ self.max.y)

/-- Merge of `BoundingVolume::merged` for `Aabb2d`: componentwise min of
minimums and max of maximums. -/
def Aabb2d.merged (self other : Aabb2d) : Aabb2d :=
  ⟨self.min.min other.min, self.max.max other.max⟩

/-- Padding of `BoundingVolume::padded` for `Aabb2d` (two-sided amounts).
The `debug_assert!` on the result is debug-only and not modelled. -/
def Aabb2d.padded (self : Aabb2d) (amount : Vec2 × Vec2) : Aabb2d :=
  ⟨self.min - amount.1, self.max + amount.2⟩

/-- A bounding circle (`BoundingCircle`). -/
structure BoundingCircle where
  center : Vec2
  circle : Circle
deriving DecidableEq

/-- Constructor `BoundingCircle::new`; its `debug_assert!(radius >= 0.)` is
debug-only and not modelled. -/
def BoundingCircle.new (center : Vec2) (radius : ℚ) : BoundingCircle :=
  ⟨center, ⟨radius⟩⟩

/-- Accessor `BoundingCircle::radius`. -/
def BoundingCircle.radius (self : BoundingCircle) : ℚ := self.circle.radius

/-- Containment test of `BoundingVolume::contains` for `BoundingCircle`: the
farthest point of `other` must not exceed `self`'s radius. -/
def BoundingCircle.contains (s : ℚ → ℚ) (self other : BoundingCircle) : Bool :=
  let furthest_point := (other.center - self.center).length s + other.radius
  decide (furthest_point ≤ self.radius)

/-- Merge of `BoundingVolume::merged` for `BoundingCircle`. -/
def BoundingCircle.merged (s : ℚ → ℚ) (self other : BoundingCircle) : BoundingCircle :=
  let diff := other.center - self.center
  let length := diff.length s
  if self.radius ≥ length + other.radius then
    self
  else if other.radius ≥ length + self.radius then
    other
  else
    let dir := diff / length
    BoundingCircle.new
      ((self.center + other.center) / (2 : ℚ) + dir * ((other.radius - self.radius) / 2))
      ((length + self.radius + other.radius) / 2)

/-- A 3D axis-aligned bounding box (`Aabb3d`). -/
structure Aabb3d where
  min : Vec3
  max : Vec3
deriving DecidableEq

/-- Model of `point_cloud_3d_center`.  The source's `assert!(len >= 1)` is a
plain assertion, active in every build; the panic is modelled by `none`. -/
def point_cloud_3d_center (points : List Vec3) : Option Vec3 :=
  match points with
  | [] => none
  | _ :: _ =>
    let denom : ℚ := 1 / (points.length : ℚ)
    some (points.foldl (fun acc point => acc + point * denom) 0)

/-- Model of `Aabb3d::from_point_cloud`: rotate every point, fold the rest
against the first to a componentwise min/max, then translate.  The source's
`expect` on the first point panics in every build on an empty cloud; the
panic is modelled by `none`. -/
def Aabb3d.from_point_cloud (translation : Vec3) (rotation : Quat)
    (points : List Vec3) : Option Aabb3d :=
  match points.map (fun point => rotation.mul_vec3 point) with
  | [] => none
  | first :: rest =>
    let fold := rest.foldl
      (fun (pm : Vec3 × Vec3) point => (point.min pm.1, point.max pm.2))
      (first, first)
    some ⟨fold.1 + translation, fold.2 + translation⟩

/-- Containment test of `BoundingVolume::contains` for `Aabb3d`. -/
def Aabb3d.contains (self other : Aabb3d) : Bool :=
  decide (other.min.x ≥ self.min.x ∧ other.min.y ≥ self.min.y ∧
    other.min.z ≥ self.min.z ∧ other.max.x ≤ self.max.x ∧
    other.max.y ≤ self.max.y ∧ other.max.z ≤ self.max.z)

/-- Merge of `BoundingVolume::merge` for `Aabb3d`. -/
def Aabb3d.merge (self other : Aabb3d) : Aabb3d :=
  ⟨self.min.min other.min, self.max.max other.max⟩

/-- Padding of `BoundingVolume::grow` for `Aabb3d`; the `debug_assert!` on the
result is debug-only and not modelled. -/
def Aabb3d.grow (self : Aabb3d) (amount : Vec3) : Aabb3d :=
  ⟨self.min - amount, self.max + amount⟩

/-- Intersection test of `IntersectsVolume` for `Aabb3d`:
`self.min.cmplt(volume.max).all() && self.max.cmpgt(volume.min).all()`. -/
def Aabb3d.intersects (self volume : Aabb3d) : Bool :=
  decide ((self.min.x < volume.max.x ∧ self.min.y < volume.max.y ∧
      self.min.z < volume.max.z) ∧
    (self.max.x > volume.min.x ∧ self.max.y > volume.min.y ∧
      self.max.z > volume.min.z))

/-- A bounding sphere (`BoundingSphere`). -/
structure BoundingSphere where
  center : Vec3
  sphere : Sphere
deriving DecidableEq

/-- Constructor `BoundingSphere::new`; its `debug_assert!(radius >= 0.)` is
debug-only and not modelled. -/
def BoundingSphere.new (center : Vec3) (radius : ℚ) : BoundingSphere :=
  ⟨center, ⟨radius⟩⟩

/-- Accessor `BoundingSphere::radius`. -/
def BoundingSphere.radius (self : BoundingSphere) : ℚ := self.sphere.radius

/-- Model of `BoundingSphere::from_point_cloud`: the center is the centroid of
the unrotated points, the squared radius the running maximum of squared
distances to that centroid, and only the returned center is transformed.
Inherits the always-active emptiness panic of `point_cloud_3d_center`. -/
def BoundingSphere.from_point_cloud (s : ℚ → ℚ) (translation : Vec3)
    (rotation : Quat) (points : List Vec3) : Option BoundingSphere :=
  (point_cloud_3d_center points).map (fun center =>
    let radius_squared := points.foldl
      (fun acc point =>
        let distance_squared := point.distance_squared center
        if distance_squared > acc then distance_squared else acc)
      0
    BoundingSphere.new (rotation.mul_vec3 center + translation) (s radius_squared))

/-- Containment test of `BoundingVolume::contains` for `BoundingSphere`:
`self.center.distance_squared(other.center) <= diff.powi(2).copysign(diff)`
with `diff = self.radius - other.radius`. -/
def BoundingSphere.contains (self other : BoundingSphere) : Bool :=
  let diff := self.radius - other.radius
  decide (self.center.distance_squared other.center ≤ copysign (diff * diff) diff)

/-- Merge of `BoundingVolume::merge` for `BoundingSphere`. -/
def BoundingSphere.merge (s : ℚ → ℚ) (self other : BoundingSphere) : BoundingSphere :=
  let diff := other.center - self.center
  let length := diff.length s
  if self.radius ≥ length + other.radius then
    self
  else if other.radius ≥ length + self.radius then
    other
  else
    let dir := diff / length
    BoundingSphere.new
      ((self.center + other.center) / (2 : ℚ) + dir * ((other.radius - self.radius) / 2))
      ((length + self.radius + other.radius) / 2)

/-- Intersection test of `IntersectsVolume` for `BoundingSphere`: the squared
center distance is compared with the unsquared sum of the radii, exactly as in
the source. -/
def BoundingSphere.intersects (self volume : BoundingSphere) : Bool :=
  let delta_center := volume.center - self.center
  let distance_squared := delta_center.length_squared
  decide (distance_squared ≤ self.radius + volume.radius)

/-- Model of `cone_local_support_point`: the farthest point on the cone in the
given local direction.  In exact arithmetic the normalization of the zeroed
lateral part of an axial direction yields the zero vector (division by zero),
which the source's `support == Vec3::ZERO || !support.is_finite()` test
catches; non-finite values cannot arise over `ℚ`. -/
def cone_local_support_point (s : ℚ → ℚ) (cone : Cone) (direction : Vec3) : Vec3 :=
  let half_height := cone.height / 2
  let support0 : Vec3 := ⟨direction.x, 0, direction.z⟩
  let support1 := support0.normalize s
  if support1 = 0 then
    ⟨0, copysign half_height direction.y, 0⟩
  else
    let support2 : Vec3 := ⟨support1.x * cone.radius, -half_height, support1.z * cone.radius⟩
    if direction.dot support2 < direction.y * half_height then
      ⟨0, half_height, 0⟩
    else
      support2

/-- Model of `Cone::aabb_3d`:six support-point evaluations along the signed
unit axes give the local extrema, and the two corner points are rotated and
translated separately, exactly as in the source. -/
def Cone.aabb_3d (s : ℚ → ℚ) (self : Cone) (translation : Vec3) (rotation : Quat) : Aabb3d :=
  let maxv : Vec3 :=
    ⟨(cone_local_support_point s self ⟨1, 0, 0⟩).x,
      (cone_local_support_point s self ⟨0, 1, 0⟩).y,
      (cone_local_support_point s self ⟨0, 0, 1⟩).z⟩
  let minv : Vec3 :=
    ⟨(cone_local_support_point s self ⟨-1, 0, 0⟩).x,
      (cone_local_support_point s self ⟨0, -1, 0⟩).y,
      (cone_local_support_point s self ⟨0, 0, -1⟩).z⟩
  ⟨rotation.mul_vec3 minv + translation, rotation.mul_vec3 maxv + translation⟩

/-- Model of an `f32` scalar with the IEEE special values the direction
validation distinguishes: not-a-number, the two infinities, and finite values
(modelled exactly by `ℚ`). -/
inductive Fl where
  | nan : Fl
  | inf : Fl
  | ninf : Fl
  | fin : ℚ → Fl
deriving DecidableEq

/-- IEEE-style addition on the scalar model: `nan` propagates, opposite
infinities give `nan`, an infinity absorbs finite values. -/
def Fl.add : Fl → Fl → Fl
  | .nan, _ => .nan
  | _, .nan => .nan
  | .inf, .ninf => .nan
  | .ninf, .inf => .nan
  | .inf, _ => .inf
  | _, .inf => .inf
  | .ninf, _ => .ninf
  | _, .ninf => .ninf
  | .fin a, .fin b => .fin (a + b)

/-- IEEE-style multiplication on the scalar model: `nan` propagates, signed
infinities multiply by sign, zero times an infinity is `nan`. -/
def Fl.mul : Fl → Fl → Fl
  | .nan, _ => .nan
  | _, .nan => .nan
  | .inf, .inf => .inf
  | .inf, .ninf => .ninf
  | .ninf, .inf => .ninf
  | .ninf, .ninf => .inf
  | .inf, .fin q => if 0 < q then .inf else if q < 0 then .ninf else .nan
  | .fin q, .inf => if 0 < q then .inf else if q < 0 then .ninf else .nan
  | .ninf, .fin q => if 0 < q then .ninf else if q < 0 then .inf else .nan
  | .fin q, .ninf => if 0 < q then .ninf else if q < 0 then .inf else .nan
  | .fin a, .fin b => .fin (a * b)

/-- IEEE-style division on the scalar model, used only for the normalization
in the `Ok` branch (where the divisor is finite and positive). -/
def Fl.div : Fl → Fl → Fl
  | .nan, _ => .nan
  | _, .nan => .nan
  | .inf, .inf => .nan
  | .inf, .ninf => .nan
  | .ninf, .inf => .nan
  | .ninf, .ninf => .nan
  | .inf, .fin q => if 0 ≤ q then .inf else .ninf
  | .ninf, .fin q => if 0 ≤ q then .ninf else .inf
  | .fin _, .inf => .fin 0
  | .fin _, .ninf => .fin 0
  | .fin a, .fin b =>
    if b = 0 then (if a = 0 then .nan else if 0 < a then .inf else .ninf)
    else .fin (a / b)

/-- Model of `f32::sqrt` on the scalar model; on finite nonnegative inputs the
root is taken through the stand-in `s`. -/
def Fl.sqrt (s : ℚ → ℚ) : Fl → Fl
  | .nan => .nan
  | .inf => .inf
  | .ninf => .nan
  | .fin q => if q < 0 then .nan else .fin (s q)

/-- Model of `f32::is_nan`. -/
def Fl.is_nan : Fl → Bool
  | .nan => true
  | _ => false

/-- Model of `f32::is_finite`. -/
def Fl.is_finite : Fl → Bool
  | .fin _ => true
  | _ => false

/-- The comparison `length > 0.0` of the source: false on `nan`, true on
`inf`, sign test on finite values. -/
def Fl.gt_zero : Fl → Bool
  | .nan => false
  | .inf => true
  | .ninf => false
  | .fin q => decide (0 < q)

/-- A 2D vector of modelled `f32` scalars, input of `Dir2::new`. -/
structure Vec2F where
  x : Fl
  y : Fl
deriving DecidableEq

/-- Length of a `Vec2F`, as `glam::Vec2::length`: the square root of the dot
product with itself. -/
def Vec2F.length (s : ℚ → ℚ) (v : Vec2F) : Fl :=
  Fl.sqrt s ((v.x.mul v.x).add (v.y.mul v.y))

/-- Componentwise division of a `Vec2F` by a scalar. -/
def Vec2F.div_scalar (v : Vec2F) (c : Fl) : Vec2F :=
  ⟨v.x.div c, v.y.div c⟩

/-- A 3D vector of modelled `f32` scalars, input of `Dir3::new`. -/
structure Vec3F where
  x : Fl
  y : Fl
  z : Fl
deriving DecidableEq

/-- Length of a `Vec3F`, as `glam::Vec3::length`. -/
def Vec3F.length (s : ℚ → ℚ) (v : Vec3F) : Fl :=
  Fl.sqrt s (((v.x.mul v.x).add (v.y.mul v.y)).add (v.z.mul v.z))

/-- Componentwise division of a `Vec3F` by a scalar. -/
def Vec3F.div_scalar (v : Vec3F) (c : Fl) : Vec3F :=
  ⟨v.x.div c, v.y.div c, v.z.div c⟩

/-- Model of `InvalidDirectionError`. -/
inductive InvalidDirectionError where
  | Zero : InvalidDirectionError
  | Infinite : InvalidDirectionError
  | NaN : InvalidDirectionError
deriving DecidableEq

/-- Model of `InvalidDirectionError::from_length`: `NaN` first, then
`Infinite` for non-finite non-`NaN` lengths, else `Zero`. -/
def InvalidDirectionError.from_length (length : Fl) : InvalidDirectionError :=
  if length.is_nan then
    InvalidDirectionError.NaN
  else if !length.is_finite then
    InvalidDirectionError.Infinite
  else
    InvalidDirectionError.Zero

/-- Model of `Dir2::new` via `Dir2::new_and_length`: `Ok(value / length)` when
the length is finite and positive, the classified error otherwise. -/
def Dir2.new (s : ℚ → ℚ) (value : Vec2F) : Except InvalidDirectionError Vec2F :=
  let length := value.length s
  if length.is_finite && length.gt_zero then
    Except.ok (value.div_scalar length)
  else
    Except.error (InvalidDirectionError.from_length length)

/-- Model of `Dir3::new` via `Dir3::new_and_length`. -/
def Dir3.new (s : ℚ → ℚ) (value : Vec3F) : Except InvalidDirectionError Vec3F :=
  let length := value.length s
  if length.is_finite && length.gt_zero then
    Except.ok (value.div_scalar length)
  else
    Except.error (InvalidDirectionError.from_length length)

/-! Basic unfolding lemmas for the vector instances. -/

lemma vec2_add_def (a b : Vec2) : a + b = ⟨a.x + b.x, a.y + b.y⟩ := rfl

lemma vec2_sub_def (a b : Vec2) : a - b = ⟨a.x - b.x, a.y - b.y⟩ := rfl

lemma vec2_neg_def (a : Vec2) : -a = ⟨-a.x, -a.y⟩ := rfl

lemma vec2_mul_def (a : Vec2) (c : ℚ) : a * c = ⟨a.x * c, a.y * c⟩ := rfl

lemma vec2_div_def (a : Vec2) (c : ℚ) : a / c = ⟨a.x / c, a.y / c⟩ := rfl

lemma vec2_zero_def : (0 : Vec2) = ⟨0, 0⟩ := rfl

lemma vec3_add_def (a b : Vec3) : a + b = ⟨a.x + b.x, a.y + b.y, a.z + b.z⟩ := rfl

lemma vec3_sub_def (a b : Vec3) : a - b = ⟨a.x - b.x, a.y - b.y, a.z - b.z⟩ := rfl

lemma vec3_neg_def (a : Vec3) : -a = ⟨-a.x, -a.y, -a.z⟩ := rfl

lemma vec3_mul_def (a : Vec3) (c : ℚ) : a * c = ⟨a.x * c, a.y * c, a.z * c⟩ := rfl

lemma vec3_div_def (a : Vec3) (c : ℚ) : a / c = ⟨a.x / c, a.y / c, a.z / c⟩ := rfl

lemma vec3_zero_def : (0 : Vec3) = ⟨0, 0, 0⟩ := rfl

lemma vec2_length_squared_sub_comm (a b : Vec2) :
    (a - b).length_squared = (b - a).length_squared := by
  simp [Vec2.length_squared, Vec2.dot, vec2_sub_def]
  ring

lemma vec3_length_squared_sub_comm (a b : Vec3) :
    (a - b).length_squared = (b - a).length_squared := by
  simp [Vec3.length_squared, Vec3.dot, vec3_sub_def]
  ring

lemma vec2_length_squared_mul (a : Vec2) (c : ℚ) :
    (a * c).length_squared = a.length_squared * (c * c) := by
  simp [Vec2.length_squared, Vec2.dot, vec2_mul_def]
  ring

lemma vec3_length_squared_mul (a : Vec3) (c : ℚ) :
    (a * c).length_squared = a.length_squared * (c * c) := by
  simp [Vec3.length_squared, Vec3.dot, vec3_mul_def]
  ring

lemma vec2_length_squared_sub_self (a : Vec2) : (a - a).length_squared = 0 := by
  simp [Vec2.length_squared, Vec2.dot, vec2_sub_def]

lemma vec3_length_squared_sub_self (a : Vec3) : (a - a).length_squared = 0 := by
  simp [Vec3.length_squared, Vec3.dot, vec3_sub_def]

lemma Quat.identity_mul_vec3 (v : Vec3) : Quat.IDENTITY.mul_vec3 v = v := by
  simp [Quat.IDENTITY, Quat.mul_vec3, Vec3.dot, Vec3.cross, vec3_add_def, vec3_mul_def]

/-- Uniqueness of nonnegative square roots in `ℚ`. -/
lemma rat_sqrt_unique {v t : ℚ} (hv : 0 ≤ v) (ht : 0 ≤ t) (h : v * v = t * t) :
    v = t := by
  have hz : (v - t) * (v + t) = 0 := by ring_nf; linarith
  rcases mul_eq_zero.mp hz with h1 | h1
  · linarith
  · have hv0 : v = 0 := by linarith
    have ht0 : t = 0 := by linarith
    rw [hv0, ht0]

/-- C1: for bounding spheres `a` and `b`, `a.intersects(b)` holds exactly when
the squared center-to-center distance is at most the unsquared sum of the two
radii, as the source compares them. -/
theorem C1_sphere_intersects_iff (a b : BoundingSphere) :
    a.intersects b = true ↔
      a.center.distance_squared b.center ≤ a.radius + b.radius := by
  simp only [BoundingSphere.intersects, decide_eq_true_eq]
  rw [Vec3.distance_squared, vec3_length_squared_sub_comm]

/-- C5: `Aabb3d` intersection holds exactly when `min < max` and `max > min`
strictly on every axis; in particular, two boxes sharing only the face
`x = 1` do not intersect. -/
theorem C5_aabb3d_intersects_strict :
    (∀ a b : Aabb3d, a.intersects b = true ↔
      (a.min.x < b.max.x ∧ a.min.y < b.max.y ∧ a.min.z < b.max.z ∧
        a.max.x > b.min.x ∧ a.max.y > b.min.y ∧ a.max.z > b.min.z)) ∧
    Aabb3d.intersects ⟨⟨0, 0, 0⟩, ⟨1, 1, 1⟩⟩ ⟨⟨1, 0, 0⟩, ⟨2, 1, 1⟩⟩ = false := by
  constructor
  · intro a b
    simp only [Aabb3d.intersects, decide_eq_true_eq]
    tauto
  · simp [Aabb3d.intersects]

/-- C9 counterexample: on the empty point cloud the constructors do not return
any value: the source's `expect` / `assert!` are active in release builds too,
so the calls panic (`none`) instead of producing a meaningless result. -/
theorem C9_empty_cloud_panics :
    Aabb3d.from_point_cloud ⟨0, 0, 0⟩ Quat.IDENTITY [] = none ∧
      BoundingSphere.from_point_cloud (fun q => q) ⟨0, 0, 0⟩ Quat.IDENTITY [] = none := by
  exact ⟨rfl, rfl⟩

/-- C9 amended: the non-emptiness precondition of the point-cloud
constructors is enforced by an `assert!` / `expect` that is active in every
build: on an empty cloud the call panics (modelled by `none`) and there is no
error-return path; on any non-empty cloud a value is produced. -/
theorem C9_point_cloud_panic_behavior :
    (∀ t q, Aabb3d.from_point_cloud t q [] = none) ∧
    (∀ s t q, BoundingSphere.from_point_cloud s t q [] = none) ∧
    (∀ t q p ps, (Aabb3d.from_point_cloud t q (p :: ps)).isSome = true) ∧
    (∀ s t q p ps, (BoundingSphere.from_point_cloud s t q (p :: ps)).isSome = true) := by
  refine ⟨fun t q => rfl, fun s t q => rfl, fun t q p ps => ?_, fun s t q p ps => ?_⟩
  · simp [Aabb3d.from_point_cloud]
  · simp [BoundingSphere.from_point_cloud, point_cloud_3d_center]

/-- C10: `BoundingSphere::from_point_cloud` computes its center and radius
from the unrotated points; the rotation only transforms the returned center,
which is `rotation * centroid + translation`, and the radius (the root of the
maximal squared distance to the centroid) is the same for any two rotations. -/
theorem C10_sphere_cloud_rotation_only_moves_center
    (s : ℚ → ℚ) (t : Vec3) (q1 q2 : Quat) (p : Vec3) (ps : List Vec3) :
    ∃ center radius,
      point_cloud_3d_center (p :: ps) = some center ∧
      BoundingSphere.from_point_cloud s t q1 (p :: ps) =
        some (BoundingSphere.new (q1.mul_vec3 center + t) radius) ∧
      BoundingSphere.from_point_cloud s t q2 (p :: ps) =
        some (BoundingSphere.new (q2.mul_vec3 center + t) radius) ∧
      radius = s ((p :: ps).foldl
        (fun acc point =>
          if point.distance_squared center > acc then point.distance_squared center
          else acc) 0) := by
  refine ⟨_, _, rfl, rfl, rfl, rfl⟩

/-- C4: the `min ≤ max` invariant fails on `Cone::aabb_3d`: the source rotates
the two local corner points separately, so a half-turn about the Y axis
(quaternion `(0, 1, 0, 0)`) swaps the corners and yields a box with
`min = (1, -1, 1)` and `max = (-1, 1, -1)` for the unit cone of height 2. -/
lemma cone_support_pos_x (s : ℚ → ℚ) (c : Cone) (hs1 : s 1 = 1) (hr : 0 ≤ c.radius) :
    cone_local_support_point s c ⟨1, 0, 0⟩ = ⟨c.radius, -(c.height / 2), 0⟩ := by
  have h1 : Vec3.normalize s ⟨1, 0, 0⟩ = ⟨1, 0, 0⟩ := by
    norm_num [Vec3.normalize, Vec3.length, Vec3.length_squared, Vec3.dot, vec3_div_def, hs1]
  have hne : ¬((⟨1, 0, 0⟩ : Vec3) = 0) := by
    simp [vec3_zero_def, Vec3.mk.injEq]
  norm_num [cone_local_support_point, h1, hne]
  intro hlt
  simp [Vec3.dot] at hlt
  linarith

lemma cone_support_neg_x (s : ℚ → ℚ) (c : Cone) (hs1 : s 1 = 1) (hr : 0 ≤ c.radius) :
    cone_local_support_point s c ⟨-1, 0, 0⟩ = ⟨-c.radius, -(c.height / 2), 0⟩ := by
  have h1 : Vec3.normalize s ⟨-1, 0, 0⟩ = ⟨-1, 0, 0⟩ := by
    norm_num [Vec3.normalize, Vec3.length, Vec3.length_squared, Vec3.dot, vec3_div_def, hs1]
  have hne : ¬((⟨-1, 0, 0⟩ : Vec3) = 0) := by
    simp [vec3_zero_def, Vec3.mk.injEq]
  norm_num [cone_local_support_point, h1, hne]
  intro hlt
  simp [Vec3.dot] at hlt
  linarith

lemma cone_support_pos_z (s : ℚ → ℚ) (c : Cone) (hs1 : s 1 = 1) (hr : 0 ≤ c.radius) :
    cone_local_support_point s c ⟨0, 0, 1⟩ = ⟨0, -(c.height / 2), c.radius⟩ := by
  have h1 : Vec3.normalize s ⟨0, 0, 1⟩ = ⟨0, 0, 1⟩ := by
    norm_num [Vec3.normalize, Vec3.length, Vec3.length_squared, Vec3.dot, vec3_div_def, hs1]
  have hne : ¬((⟨0, 0, 1⟩ : Vec3) = 0) := by
    simp [vec3_zero_def, Vec3.mk.injEq]
  norm_num [cone_local_support_point, h1, hne]
  intro hlt
  simp [Vec3.dot] at hlt
  linarith

lemma cone_support_neg_z (s : ℚ → ℚ) (c : Cone) (hs1 : s 1 = 1) (hr : 0 ≤ c.radius) :
    cone_local_support_point s c ⟨0, 0, -1⟩ = ⟨0, -(c.height / 2), -c.radius⟩ := by
  have h1 : Vec3.normalize s ⟨0, 0, -1⟩ = ⟨0, 0, -1⟩ := by
    norm_num [Vec3.normalize, Vec3.length, Vec3.length_squared, Vec3.dot, vec3_div_def, hs1]
  have hne : ¬((⟨0, 0, -1⟩ : Vec3) = 0) := by
    simp [vec3_zero_def, Vec3.mk.injEq]
  norm_num [cone_local_support_point, h1, hne]
  intro hlt
  simp [Vec3.dot] at hlt
  linarith

lemma cone_support_pos_y (s : ℚ → ℚ) (c : Cone) (hh : 0 ≤ c.height) :
    cone_local_support_point s c ⟨0, 1, 0⟩ = ⟨0, c.height / 2, 0⟩ := by
  have h1 : Vec3.normalize s ⟨0, 0, 0⟩ = 0 := by
    simp [Vec3.normalize, Vec3.length, Vec3.length_squared, Vec3.dot, vec3_div_def, vec3_zero_def]
  norm_num [cone_local_support_point, h1, copysign]
  all_goals linarith [abs_of_nonneg (show (0 : ℚ) ≤ c.height / 2 by linarith)]

lemma cone_support_neg_y (s : ℚ → ℚ) (c : Cone) (hh : 0 ≤ c.height) :
    cone_local_support_point s c ⟨0, -1, 0⟩ = ⟨0, -(c.height / 2), 0⟩ := by
  have h1 : Vec3.normalize s ⟨0, 0, 0⟩ = 0 := by
    simp [Vec3.normalize, Vec3.length, Vec3.length_squared, Vec3.dot, vec3_div_def, vec3_zero_def]
  norm_num [cone_local_support_point, h1, copysign]
  all_goals linarith [abs_of_nonneg (show (0 : ℚ) ≤ c.height / 2 by linarith)]

/-- Evaluation of `Cone::aabb_3d` for a well-formed cone: the six support
evaluations give the local corners `±(r, h/2, r)`, which are then rotated and
translated separately. -/
lemma Cone.aabb_3d_eval (s : ℚ → ℚ) (c : Cone) (t : Vec3) (q : Quat)
    (hs1 : s 1 = 1) (hr : 0 ≤ c.radius) (hh : 0 ≤ c.height) :
    Cone.aabb_3d s c t q =
      ⟨q.mul_vec3 ⟨-c.radius, -(c.height / 2), -c.radius⟩ + t,
        q.mul_vec3 ⟨c.radius, c.height / 2, c.radius⟩ + t⟩ := by
  rw [Cone.aabb_3d, cone_support_pos_x s c hs1 hr, cone_support_neg_x s c hs1 hr,
    cone_support_pos_z s c hs1 hr, cone_support_neg_z s c hs1 hr,
    cone_support_pos_y s c hh, cone_support_neg_y s c hh]

/-- C4: the `min ≤ max` invariant fails on `Cone::aabb_3d`: the source rotates
the two local corner points separately, so a half-turn about the Y axis
(quaternion `(0, 1, 0, 0)`) swaps the corners and yields a box with
`min = (1, -1, 1)` and `max = (-1, 1, -1)` for the unit cone of height 2. -/
theorem C4_cone_aabb_invariant_violation :
    Cone.aabb_3d (fun q => q) ⟨1, 2⟩ ⟨0, 0, 0⟩ ⟨0, 1, 0, 0⟩ =
      ⟨⟨1, -1, 1⟩, ⟨-1, 1, -1⟩⟩ ∧
    ¬((Cone.aabb_3d (fun q => q) ⟨1, 2⟩ ⟨0, 0, 0⟩ ⟨0, 1, 0, 0⟩).min.x ≤
      (Cone.aabb_3d (fun q => q) ⟨1, 2⟩ ⟨0, 0, 0⟩ ⟨0, 1, 0, 0⟩).max.x) := by
  have h : Cone.aabb_3d (fun q => q) ⟨1, 2⟩ ⟨0, 0, 0⟩ ⟨0, 1, 0, 0⟩ =
      ⟨⟨1, -1, 1⟩, ⟨-1, 1, -1⟩⟩ := by
    rw [Cone.aabb_3d_eval (fun q => q) ⟨1, 2⟩ ⟨0, 0, 0⟩ ⟨0, 1, 0, 0⟩ rfl
      (by norm_num) (by norm_num)]
    norm_num [Quat.mul_vec3, Vec3.dot, Vec3.cross, vec3_add_def, vec3_mul_def, Vec3.mk.injEq]
  refine ⟨h, ?_⟩
  rw [h]
  norm_num

lemma Vec3.add_comm_vec (a b : Vec3) : a + b = b + a := by
  simp [vec3_add_def, Vec3.mk.injEq]
  refine ⟨by ring, by ring, by ring⟩

/-- C6: for a cone with positive base radius and height, `aabb_3d` at the
identity rotation returns exactly the analytic box
`[t - (r, h/2, r), t + (r, h/2, r)]`, built from the six support-point
evaluations along the signed unit axes. -/
theorem C6_cone_identity_rotation_aabb (s : ℚ → ℚ) (c : Cone) (t : Vec3)
    (hr : 0 < c.radius) (hh : 0 < c.height) (hs1 : s 1 = 1) :
    Cone.aabb_3d s c t Quat.IDENTITY =
      ⟨t + ⟨-c.radius, -(c.height / 2), -c.radius⟩,
        t + ⟨c.radius, c.height / 2, c.radius⟩⟩ := by
  rw [Cone.aabb_3d_eval s c t Quat.IDENTITY hs1 hr.le hh.le,
    Quat.identity_mul_vec3, Quat.identity_mul_vec3,
    Vec3.add_comm_vec ⟨-c.radius, -(c.height / 2), -c.radius⟩ t,
    Vec3.add_comm_vec ⟨c.radius, c.height / 2, c.radius⟩ t]

/-- C2: the circle and sphere merge follows the three ordered cases of the
claim (return `self` if it contains `other`, return `other` if it contains
`self`, otherwise the midpoint-shift construction), where `d` is the exact
center distance; and the concrete circle instance of the claim evaluates to
center `(1, 1/2)` and radius `11/2`. -/
theorem C2_circle_sphere_merge_formula
    (s : ℚ → ℚ) (a b : BoundingCircle) (a3 b3 : BoundingSphere) (d d3 : ℚ)
    (hsd : (b.center - a.center).length s = d)
    (hd0 : 0 ≤ d) (hdd : d * d = (b.center - a.center).length_squared)
    (hsd3 : (b3.center - a3.center).length s = d3)
    (hd30 : 0 ≤ d3) (hdd3 : d3 * d3 = (b3.center - a3.center).length_squared)
    (hs25 : s 25 = 5) :
    (a.radius ≥ d + b.radius → a.merged s b = a) ∧
    (¬(a.radius ≥ d + b.radius) → b.radius ≥ d + a.radius → a.merged s b = b) ∧
    (¬(a.radius ≥ d + b.radius) → ¬(b.radius ≥ d + a.radius) →
      a.merged s b = BoundingCircle.new
        ((a.center + b.center) / (2 : ℚ) +
          ((b.center - a.center) / d) * ((b.radius - a.radius) / 2))
        ((d + a.radius + b.radius) / 2)) ∧
    (a3.radius ≥ d3 + b3.radius → a3.merge s b3 = a3) ∧
    (¬(a3.radius ≥ d3 + b3.radius) → b3.radius ≥ d3 + a3.radius → a3.merge s b3 = b3) ∧
    (¬(a3.radius ≥ d3 + b3.radius) → ¬(b3.radius ≥ d3 + a3.radius) →
      a3.merge s b3 = BoundingSphere.new
        ((a3.center + b3.center) / (2 : ℚ) +
          ((b3.center - a3.center) / d3) * ((b3.radius - a3.radius) / 2))
        ((d3 + a3.radius + b3.radius) / 2)) ∧
    BoundingCircle.merged s (BoundingCircle.new ⟨1, 1⟩ 5) (BoundingCircle.new ⟨1, -4⟩ 1) =
      BoundingCircle.new ⟨1, 1 / 2⟩ (11 / 2) := by
  have hm : a.merged s b =
      if a.radius ≥ d + b.radius then a
      else if b.radius ≥ d + a.radius then b
      else BoundingCircle.new
        ((a.center + b.center) / (2 : ℚ) +
          ((b.center - a.center) / d) * ((b.radius - a.radius) / 2))
        ((d + a.radius + b.radius) / 2) := by
    rw [BoundingCircle.merged, hsd]
  have hm3 : a3.merge s b3 =
      if a3.radius ≥ d3 + b3.radius then a3
      else if b3.radius ≥ d3 + a3.radius then b3
      else BoundingSphere.new
        ((a3.center + b3.center) / (2 : ℚ) +
          ((b3.center - a3.center) / d3) * ((b3.radius - a3.radius) / 2))
        ((d3 + a3.radius + b3.radius) / 2) := by
    rw [BoundingSphere.merge, hsd3]
  refine ⟨fun h1 => ?_, fun h1 h2 => ?_, fun h1 h2 => ?_,
    fun h1 => ?_, fun h1 h2 => ?_, fun h1 h2 => ?_, ?_⟩
  · rw [hm, if_pos h1]
  · rw [hm, if_neg h1, if_pos h2]
  · rw [hm, if_neg h1, if_neg h2]
  · rw [hm3, if_pos h1]
  · rw [hm3, if_neg h1, if_pos h2]
  · rw [hm3, if_neg h1, if_neg h2]
  · norm_num [BoundingCircle.merged, BoundingCircle.new, BoundingCircle.radius,
      Vec2.length, Vec2.length_squared, Vec2.dot, vec2_sub_def, vec2_add_def,
      vec2_div_def, vec2_mul_def, hs25, Vec2.mk.injEq]

set_option maxHeartbeats 1600000 in
/-- C3: merging two volumes of the same kind yields a volume containing both
operands, for 2D boxes, 3D boxes, bounding circles and bounding spheres; for
the circle and sphere cases the square roots the code takes are assumed
exact at the points where they are taken. -/
theorem C3_merged_contains_operands
    (s : ℚ → ℚ) (A B : Aabb2d) (P Q : Aabb3d)
    (a b : BoundingCircle) (a3 b3 : BoundingSphere)
    (h1 : Sok s ((b.center - a.center).length_squared))
    (h2 : Sok s ((a.center - (a.merged s b).center).length_squared))
    (h3 : Sok s ((b.center - (a.merged s b).center).length_squared))
    (g1 : Sok s ((b3.center - a3.center).length_squared)) :
    (A.merged B).contains A = true ∧ (A.merged B).contains B = true ∧
    (P.merge Q).contains P = true ∧ (P.merge Q).contains Q = true ∧
    (a.merged s b).contains s a = true ∧ (a.merged s b).contains s b = true ∧
    (a3.merge s b3).contains a3 = true ∧ (a3.merge s b3).contains b3 = true := by
  have box2 : (A.merged B).contains A = true ∧ (A.merged B).contains B = true := by
    constructor <;>
      simp [Aabb2d.contains, Aabb2d.merged, Vec2.min, Vec2.max,
        min_le_left, min_le_right, le_max_left, le_max_right]
  have box3 : (P.merge Q).contains P = true ∧ (P.merge Q).contains Q = true := by
    constructor <;>
      simp [Aabb3d.contains, Aabb3d.merge, Vec3.min, Vec3.max,
        min_le_left, min_le_right, le_max_left, le_max_right]
  have hcont : ∀ u v : BoundingCircle, (u.contains s v = true) ↔
      s ((v.center - u.center).length_squared) + v.radius ≤ u.radius := by
    intro u v
    simp [BoundingCircle.contains, Vec2.length]
  have hcont3 : ∀ u v : BoundingSphere, (u.contains v = true) ↔
      (u.center - v.center).length_squared ≤
        copysign ((u.radius - v.radius) * (u.radius - v.radius))
          (u.radius - v.radius) := by
    intro u v
    simp [BoundingSphere.contains, Vec3.distance_squared]
  obtain ⟨hd0, hdd⟩ := h1
  generalize hD : s ((b.center - a.center).length_squared) = D at hd0 hdd
  have hm : a.merged s b =
      if a.radius ≥ D + b.radius then a
      else if b.radius ≥ D + a.radius then b
      else BoundingCircle.new
        ((a.center + b.center) / (2 : ℚ) +
          ((b.center - a.center) / D) * ((b.radius - a.radius) / 2))
        ((D + a.radius + b.radius) / 2) := by
    simp only [BoundingCircle.merged, Vec2.length, hD]
  have hcirc : (a.merged s b).contains s a = true ∧
      (a.merged s b).contains s b = true := by
    by_cases c1 : a.radius ≥ D + b.radius
    · have hma : a.merged s b = a := by rw [hm, if_pos c1]
      rw [hma, vec2_length_squared_sub_self] at h2
      have h0 : s 0 = 0 := mul_self_eq_zero.mp h2.2
      constructor
      · rw [hma, hcont, vec2_length_squared_sub_self, h0]
        linarith
      · rw [hma, hcont, hD]
        linarith
    · by_cases c2 : b.radius ≥ D + a.radius
      · have hmb : a.merged s b = b := by rw [hm, if_neg c1, if_pos c2]
        rw [hmb, vec2_length_squared_sub_self] at h3
        have h0 : s 0 = 0 := mul_self_eq_zero.mp h3.2
        constructor
        · rw [hmb, hcont, vec2_length_squared_sub_comm, hD]
          linarith
        · rw [hmb, hcont, vec2_length_squared_sub_self, h0]
          linarith
      · have hra : a.radius < D + b.radius := lt_of_not_ge c1
        have hrb : b.radius < D + a.radius := lt_of_not_ge c2
        have hdpos : 0 < D := by linarith
        have hdne : D ≠ 0 := ne_of_gt hdpos
        have hmc : a.merged s b = BoundingCircle.new
            ((a.center + b.center) / (2 : ℚ) +
              ((b.center - a.center) / D) * ((b.radius - a.radius) / 2))
            ((D + a.radius + b.radius) / 2) := by
          rw [hm, if_neg c1, if_neg c2]
        have hrad : (a.merged s b).radius = (D + a.radius + b.radius) / 2 := by
          rw [hmc]
          rfl
        have hva : a.center - (a.merged s b).center =
            (a.center - b.center) * ((D + b.radius - a.radius) / (2 * D)) := by
          rw [hmc]
          simp only [BoundingCircle.new, vec2_sub_def, vec2_add_def, vec2_div_def,
            vec2_mul_def, Vec2.mk.injEq]
          constructor <;> (field_simp; ring)
        have hvb : b.center - (a.merged s b).center =
            (b.center - a.center) * ((D + a.radius - b.radius) / (2 * D)) := by
          rw [hmc]
          simp only [BoundingCircle.new, vec2_sub_def, vec2_add_def, vec2_div_def,
            vec2_mul_def, Vec2.mk.injEq]
          constructor <;> (field_simp; ring)
        have hlena : (a.center - (a.merged s b).center).length_squared =
            ((D + b.radius - a.radius) / 2) * ((D + b.radius - a.radius) / 2) := by
          rw [hva, vec2_length_squared_mul, vec2_length_squared_sub_comm, ← hdd]
          field_simp
          ring
        have hlenb : (b.center - (a.merged s b).center).length_squared =
            ((D + a.radius - b.radius) / 2) * ((D + a.radius - b.radius) / 2) := by
          rw [hvb, vec2_length_squared_mul, ← hdd]
          field_simp
          ring
        have hsa : s ((a.center - (a.merged s b).center).length_squared) =
            (D + b.radius - a.radius) / 2 := by
          apply rat_sqrt_unique h2.1 (by linarith)
          rw [h2.2, hlena]
        have hsb : s ((b.center - (a.merged s b).center).length_squared) =
            (D + a.radius - b.radius) / 2 := by
          apply rat_sqrt_unique h3.1 (by linarith)
          rw [h3.2, hlenb]
        constructor
        · rw [hcont, hsa, hrad]
          linarith
        · rw [hcont, hsb, hrad]
          linarith
  obtain ⟨hd30, hdd3⟩ := g1
  generalize hE : s ((b3.center - a3.center).length_squared) = E at hd30 hdd3
  have hm3 : a3.merge s b3 =
      if a3.radius ≥ E + b3.radius then a3
      else if b3.radius ≥ E + a3.radius then b3
      else BoundingSphere.new
        ((a3.center + b3.center) / (2 : ℚ) +
          ((b3.center - a3.center) / E) * ((b3.radius - a3.radius) / 2))
        ((E + a3.radius + b3.radius) / 2) := by
    simp only [BoundingSphere.merge, Vec3.length, hE]
  have hsph : (a3.merge s b3).contains a3 = true ∧
      (a3.merge s b3).contains b3 = true := by
    by_cases c1 : a3.radius ≥ E + b3.radius
    · have hma : a3.merge s b3 = a3 := by rw [hm3, if_pos c1]
      constructor
      · rw [hma, hcont3, vec3_length_squared_sub_self]
        simp [copysign]
      · rw [hma, hcont3]
        have hge : 0 ≤ a3.radius - b3.radius := by linarith
        rw [copysign, if_neg (not_lt.mpr hge), abs_of_nonneg (mul_self_nonneg _),
          vec3_length_squared_sub_comm, ← hdd3]
        nlinarith [mul_nonneg (by linarith : (0 : ℚ) ≤ a3.radius - b3.radius - E)
          (by linarith : (0 : ℚ) ≤ a3.radius - b3.radius + E)]
    · by_cases c2 : b3.radius ≥ E + a3.radius
      · have hmb : a3.merge s b3 = b3 := by rw [hm3, if_neg c1, if_pos c2]
        constructor
        · rw [hmb, hcont3]
          have hge : 0 ≤ b3.radius - a3.radius := by linarith
          rw [copysign, if_neg (not_lt.mpr hge), abs_of_nonneg (mul_self_nonneg _),
            ← hdd3]
          nlinarith [mul_nonneg (by linarith : (0 : ℚ) ≤ b3.radius - a3.radius - E)
            (by linarith : (0 : ℚ) ≤ b3.radius - a3.radius + E)]
        · rw [hmb, hcont3, vec3_length_squared_sub_self]
          simp [copysign]
      · have hra : a3.radius < E + b3.radius := lt_of_not_ge c1
        have hrb : b3.radius < E + a3.radius := lt_of_not_ge c2
        have hdpos : 0 < E := by linarith
        have hdne : E ≠ 0 := ne_of_gt hdpos
        have hmc : a3.merge s b3 = BoundingSphere.new
            ((a3.center + b3.center) / (2 : ℚ) +
              ((b3.center - a3.center) / E) * ((b3.radius - a3.radius) / 2))
            ((E + a3.radius + b3.radius) / 2) := by
          rw [hm3, if_neg c1, if_neg c2]
        have hrad : (a3.merge s b3).radius = (E + a3.radius + b3.radius) / 2 := by
          rw [hmc]
          rfl
        have hva : (a3.merge s b3).center - a3.center =
            (b3.center - a3.center) * ((E + b3.radius - a3.radius) / (2 * E)) := by
          rw [hmc]
          simp only [BoundingSphere.new, vec3_sub_def, vec3_add_def, vec3_div_def,
            vec3_mul_def, Vec3.mk.injEq]
          refine ⟨?_, ?_, ?_⟩ <;> (field_simp; ring)
        have hvb : (a3.merge s b3).center - b3.center =
            (b3.center - a3.center) * ((b3.radius - a3.radius - E) / (2 * E)) := by
          rw [hmc]
          simp only [BoundingSphere.new, vec3_sub_def, vec3_add_def, vec3_div_def,
            vec3_mul_def, Vec3.mk.injEq]
          refine ⟨?_, ?_, ?_⟩ <;> (field_simp; ring)
        have hlena : ((a3.merge s b3).center - a3.center).length_squared =
            ((E + b3.radius - a3.radius) / 2) * ((E + b3.radius - a3.radius) / 2) := by
          rw [hva, vec3_length_squared_mul, ← hdd3]
          field_simp
          ring
        have hlenb : ((a3.merge s b3).center - b3.center).length_squared =
            ((E + a3.radius - b3.radius) / 2) * ((E + a3.radius - b3.radius) / 2) := by
          rw [hvb, vec3_length_squared_mul, ← hdd3]
          field_simp
          ring
        constructor
        · rw [hcont3, hlena, hrad]
          have hx : (E + a3.radius + b3.radius) / 2 - a3.radius =
              (E + b3.radius - a3.radius) / 2 := by ring
          rw [hx, copysign, if_neg (not_lt.mpr (by linarith)),
            abs_of_nonneg (mul_self_nonneg _)]
        · rw [hcont3, hlenb, hrad]
          have hx : (E + a3.radius + b3.radius) / 2 - b3.radius =
              (E + a3.radius - b3.radius) / 2 := by ring
          rw [hx, copysign, if_neg (not_lt.mpr (by linarith)),
            abs_of_nonneg (mul_self_nonneg _)]
  exact ⟨box2.1, box2.2, box3.1, box3.2, hcirc.1, hcirc.2, hsph.1, hsph.2⟩

/-- Scalar core of the squared-distance containment test: comparing the
squared distance against the sign-carrying squared radius difference is the
same as comparing the exact distance plus the inner radius against the outer
radius. -/
lemma contains_sq_iff (dist ra rb lsq : ℚ) (hd0 : 0 ≤ dist)
    (hdd : dist * dist = lsq) :
    (lsq ≤ copysign ((ra - rb) * (ra - rb)) (ra - rb)) ↔ dist + rb ≤ ra := by
  rw [copysign]
  by_cases hlt : ra - rb < 0
  · rw [if_pos hlt]
    constructor
    · intro h
      exfalso
      have h1 : 0 < (ra - rb) * (ra - rb) := mul_pos_of_neg_of_neg hlt hlt
      have h2 : 0 ≤ lsq := hdd ▸ mul_self_nonneg dist
      rw [abs_of_pos h1] at h
      linarith
    · intro h
      exfalso
      linarith
  · rw [if_neg hlt, abs_of_nonneg (mul_self_nonneg _)]
    push_neg at hlt
    constructor
    · intro h
      nlinarith [hdd, sq_nonneg (dist - (ra - rb)), sq_nonneg (dist + (ra - rb))]
    · intro h
      nlinarith [hdd]

/-- C7: for circles and spheres with nonnegative radii and exact center
distances `d`, `d3`, containment holds exactly when the distance plus the
inner radius does not exceed the outer radius; the squared-distance
formulation used for spheres defines the same predicate as the direct
farthest-point formulation used for circles; and a strictly larger `other`
is never contained. -/
theorem C7_contains_characterization
    (s : ℚ → ℚ) (a b : BoundingCircle) (a3 b3 : BoundingSphere) (d d3 : ℚ)
    (hra : 0 ≤ a.radius) (hrb : 0 ≤ b.radius)
    (hra3 : 0 ≤ a3.radius) (hrb3 : 0 ≤ b3.radius)
    (hsd : s ((b.center - a.center).length_squared) = d)
    (hd0 : 0 ≤ d) (hdd : d * d = (b.center - a.center).length_squared)
    (hd30 : 0 ≤ d3) (hdd3 : d3 * d3 = (a3.center - b3.center).length_squared) :
    (a.contains s b = true ↔ d + b.radius ≤ a.radius) ∧
    (a3.contains b3 = true ↔ d3 + b3.radius ≤ a3.radius) ∧
    (a.contains s b = decide ((b.center - a.center).length_squared ≤
      copysign ((a.radius - b.radius) * (a.radius - b.radius))
        (a.radius - b.radius))) ∧
    (a.radius < b.radius → a.contains s b = false) ∧
    (a3.radius < b3.radius → a3.contains b3 = false) := by
  have hciff : a.contains s b = true ↔ d + b.radius ≤ a.radius := by
    simp only [BoundingCircle.contains, Vec2.length, decide_eq_true_eq, hsd]
  have hsiff : a3.contains b3 = true ↔ d3 + b3.radius ≤ a3.radius := by
    simp only [BoundingSphere.contains, Vec3.distance_squared, decide_eq_true_eq]
    exact contains_sq_iff d3 a3.radius b3.radius _ hd30 hdd3
  refine ⟨hciff, hsiff, ?_, ?_, ?_⟩
  · simp only [BoundingCircle.contains, Vec2.length]
    rw [decide_eq_decide, hsd]
    exact (contains_sq_iff d a.radius b.radius _ hd0 hdd).symm
  · intro h
    rw [← Bool.not_eq_true, hciff]
    intro hc
    linarith
  · intro h
    rw [← Bool.not_eq_true, hsiff]
    intro hc
    linarith

/-- C8: direction construction succeeds with the normalized vector exactly
when the computed length is finite and strictly positive, and the failure is
classified in priority order: any `NaN` coordinate gives the `NaN` error, an
infinite coordinate with no `NaN` gives `Infinite`, and the zero vector gives
`Zero` — for both `Dir2::new` and `Dir3::new`. -/
theorem C8_direction_validation (s : ℚ → ℚ) (v : Vec3F) (w : Vec2F)
    (hs0 : s 0 = 0) :
    ((Dir3.new s v = Except.ok (v.div_scalar (v.length s))) ↔
      ((v.length s).is_finite && (v.length s).gt_zero) = true) ∧
    (v.x.is_nan = true ∨ v.y.is_nan = true ∨ v.z.is_nan = true →
      Dir3.new s v = Except.error InvalidDirectionError.NaN) ∧
    ((v.x.is_nan = false ∧ v.y.is_nan = false ∧ v.z.is_nan = false) →
      (v.x = Fl.inf ∨ v.x = Fl.ninf ∨ v.y = Fl.inf ∨ v.y = Fl.ninf ∨
        v.z = Fl.inf ∨ v.z = Fl.ninf) →
      Dir3.new s v = Except.error InvalidDirectionError.Infinite) ∧
    (v = ⟨Fl.fin 0, Fl.fin 0, Fl.fin 0⟩ →
      Dir3.new s v = Except.error InvalidDirectionError.Zero) ∧
    ((Dir2.new s w = Except.ok (w.div_scalar (w.length s))) ↔
      ((w.length s).is_finite && (w.length s).gt_zero) = true) ∧
    (w.x.is_nan = true ∨ w.y.is_nan = true →
      Dir2.new s w = Except.error InvalidDirectionError.NaN) ∧
    ((w.x.is_nan = false ∧ w.y.is_nan = false) →
      (w.x = Fl.inf ∨ w.x = Fl.ninf ∨ w.y = Fl.inf ∨ w.y = Fl.ninf) →
      Dir2.new s w = Except.error InvalidDirectionError.Infinite) ∧
    (w = ⟨Fl.fin 0, Fl.fin 0⟩ →
      Dir2.new s w = Except.error InvalidDirectionError.Zero) := by
  obtain ⟨x, y, z⟩ := v
  obtain ⟨p1, p2⟩ := w
  refine ⟨?_, ?_, ?_, ?_, ?_, ?_, ?_, ?_⟩
  · simp only [Dir3.new]
    split
    · simp_all
    · simp_all
  · intro h
    cases x <;> cases y <;> cases z <;>
      simp_all [Dir3.new, Vec3F.length, Fl.mul, Fl.add, Fl.sqrt, Fl.is_nan,
        Fl.is_finite, Fl.gt_zero, InvalidDirectionError.from_length]
  · intro hn h
    cases x <;> cases y <;> cases z <;>
      simp_all [Dir3.new, Vec3F.length, Fl.mul, Fl.add, Fl.sqrt, Fl.is_nan,
        Fl.is_finite, Fl.gt_zero, InvalidDirectionError.from_length]
  · intro h
    rw [Vec3F.mk.injEq] at h
    obtain ⟨hx, hy, hz⟩ := h
    subst hx hy hz
    simp [Dir3.new, Vec3F.length, Fl.mul, Fl.add, Fl.sqrt, Fl.is_nan,
      Fl.is_finite, Fl.gt_zero, InvalidDirectionError.from_length, hs0]
  · simp only [Dir2.new]
    split
    · simp_all
    · simp_all
  · intro h
    cases p1 <;> cases p2 <;>
      simp_all [Dir2.new, Vec2F.length, Fl.mul, Fl.add, Fl.sqrt, Fl.is_nan,
        Fl.is_finite, Fl.gt_zero, InvalidDirectionError.from_length]
  · intro hn h
    cases p1 <;> cases p2 <;>
      simp_all [Dir2.new, Vec2F.length, Fl.mul, Fl.add, Fl.sqrt, Fl.is_nan,
        Fl.is_finite, Fl.gt_zero, InvalidDirectionError.from_length]
  · intro h
    rw [Vec2F.mk.injEq] at h
    obtain ⟨hx, hy⟩ := h
    subst hx hy
    simp [Dir2.new, Vec2F.length, Fl.mul, Fl.add, Fl.sqrt, Fl.is_nan,
      Fl.is_finite, Fl.gt_zero, InvalidDirectionError.from_length, hs0]

/-- Witness for C2 at the claim's concrete circles, with a square-root table
exact at the needed points. -/
theorem C2_circle_sphere_merge_formula_witness :
    BoundingCircle.merged
        (fun q => if q = 25 then 5 else if q = 1 / 4 then 1 / 2 else if q = 81 / 4 then 9 / 2 else 0)
        (BoundingCircle.new ⟨1, 1⟩ 5) (BoundingCircle.new ⟨1, -4⟩ 1) =
      BoundingCircle.new ⟨1, 1 / 2⟩ (11 / 2) :=
  (C2_circle_sphere_merge_formula
    (fun q => if q = 25 then 5 else if q = 1 / 4 then 1 / 2 else if q = 81 / 4 then 9 / 2 else 0)
    (BoundingCircle.new ⟨1, 1⟩ 5) (BoundingCircle.new ⟨1, -4⟩ 1)
    (BoundingSphere.new ⟨1, 1, 1⟩ 5) (BoundingSphere.new ⟨1, 1, -4⟩ 1) 5 5
    (by norm_num [Vec2.length, Vec2.length_squared, Vec2.dot, vec2_sub_def,
      BoundingCircle.new])
    (by norm_num)
    (by norm_num [Vec2.length_squared, Vec2.dot, vec2_sub_def, BoundingCircle.new])
    (by norm_num [Vec3.length, Vec3.length_squared, Vec3.dot, vec3_sub_def,
      BoundingSphere.new])
    (by norm_num)
    (by norm_num [Vec3.length_squared, Vec3.dot, vec3_sub_def, BoundingSphere.new])
    (by norm_num)).2.2.2.2.2.2

/-- Witness for C3 at concrete boxes, circles and spheres. -/
theorem C3_merged_contains_operands_witness :
    ((BoundingCircle.new ⟨1, 1⟩ 5).merged
        (fun q => if q = 25 then 5 else if q = 1 / 4 then 1 / 2 else if q = 81 / 4 then 9 / 2 else 0)
        (BoundingCircle.new ⟨1, -4⟩ 1)).contains
        (fun q => if q = 25 then 5 else if q = 1 / 4 then 1 / 2 else if q = 81 / 4 then 9 / 2 else 0)
        (BoundingCircle.new ⟨1, 1⟩ 5) = true ∧
    ((BoundingSphere.new ⟨1, 1, 1⟩ 5).merge
        (fun q => if q = 25 then 5 else if q = 1 / 4 then 1 / 2 else if q = 81 / 4 then 9 / 2 else 0)
        (BoundingSphere.new ⟨1, 1, -4⟩ 1)).contains
        (BoundingSphere.new ⟨1, 1, 1⟩ 5) = true := by
  constructor
  · exact (C3_merged_contains_operands
      (fun q => if q = 25 then 5 else if q = 1 / 4 then 1 / 2 else if q = 81 / 4 then 9 / 2 else 0)
      ⟨⟨0, 0⟩, ⟨1, 1⟩⟩ ⟨⟨0, 0⟩, ⟨2, 2⟩⟩ ⟨⟨0, 0, 0⟩, ⟨1, 1, 1⟩⟩ ⟨⟨0, 0, 0⟩, ⟨2, 2, 2⟩⟩
      (BoundingCircle.new ⟨1, 1⟩ 5) (BoundingCircle.new ⟨1, -4⟩ 1)
      (BoundingSphere.new ⟨1, 1, 1⟩ 5) (BoundingSphere.new ⟨1, 1, -4⟩ 1)
      (by norm_num [Sok, Vec2.length_squared, Vec2.dot, vec2_sub_def, BoundingCircle.new])
      (by norm_num [Sok, BoundingCircle.merged, BoundingCircle.new, BoundingCircle.radius,
        Vec2.length, Vec2.length_squared, Vec2.dot, vec2_sub_def, vec2_add_def,
        vec2_div_def, vec2_mul_def])
      (by norm_num [Sok, BoundingCircle.merged, BoundingCircle.new, BoundingCircle.radius,
        Vec2.length, Vec2.length_squared, Vec2.dot, vec2_sub_def, vec2_add_def,
        vec2_div_def, vec2_mul_def])
      (by norm_num [Sok, Vec3.length_squared, Vec3.dot, vec3_sub_def,
        BoundingSphere.new])).2.2.2.2.1
  · exact (C3_merged_contains_operands
      (fun q => if q = 25 then 5 else if q = 1 / 4 then 1 / 2 else if q = 81 / 4 then 9 / 2 else 0)
      ⟨⟨0, 0⟩, ⟨1, 1⟩⟩ ⟨⟨0, 0⟩, ⟨2, 2⟩⟩ ⟨⟨0, 0, 0⟩, ⟨1, 1, 1⟩⟩ ⟨⟨0, 0, 0⟩, ⟨2, 2, 2⟩⟩
      (BoundingCircle.new ⟨1, 1⟩ 5) (BoundingCircle.new ⟨1, -4⟩ 1)
      (BoundingSphere.new ⟨1, 1, 1⟩ 5) (BoundingSphere.new ⟨1, 1, -4⟩ 1)
      (by norm_num [Sok, Vec2.length_squared, Vec2.dot, vec2_sub_def, BoundingCircle.new])
      (by norm_num [Sok, BoundingCircle.merged, BoundingCircle.new, BoundingCircle.radius,
        Vec2.length, Vec2.length_squared, Vec2.dot, vec2_sub_def, vec2_add_def,
        vec2_div_def, vec2_mul_def])
      (by norm_num [Sok, BoundingCircle.merged, BoundingCircle.new, BoundingCircle.radius,
        Vec2.length, Vec2.length_squared, Vec2.dot, vec2_sub_def, vec2_add_def,
        vec2_div_def, vec2_mul_def])
      (by norm_num [Sok, Vec3.length_squared, Vec3.dot, vec3_sub_def,
        BoundingSphere.new])).2.2.2.2.2.2.1

/-- Witness for C6 at the unit-radius cone of height 2 at the origin. -/
theorem C6_cone_identity_rotation_aabb_witness :
    Cone.aabb_3d (fun q => q) ⟨1, 2⟩ ⟨0, 0, 0⟩ Quat.IDENTITY =
      ⟨(⟨0, 0, 0⟩ : Vec3) + ⟨-1, -(2 / 2), -1⟩, (⟨0, 0, 0⟩ : Vec3) + ⟨1, 2 / 2, 1⟩⟩ :=
  C6_cone_identity_rotation_aabb (fun q => q) ⟨1, 2⟩ ⟨0, 0, 0⟩
    (by norm_num) (by norm_num) rfl

/-- Witness for C7 at concrete circles with exact distance 5. -/
theorem C7_contains_characterization_witness :
    ((BoundingCircle.new ⟨1, 1⟩ 5).contains
        (fun q => if q = 25 then 5 else if q = 1 / 4 then 1 / 2 else if q = 81 / 4 then 9 / 2 else 0)
        (BoundingCircle.new ⟨1, -4⟩ 1) = true ↔ (5 : ℚ) + 1 ≤ 5) :=
  (C7_contains_characterization
    (fun q => if q = 25 then 5 else if q = 1 / 4 then 1 / 2 else if q = 81 / 4 then 9 / 2 else 0)
    (BoundingCircle.new ⟨1, 1⟩ 5) (BoundingCircle.new ⟨1, -4⟩ 1)
    (BoundingSphere.new ⟨1, 1, 1⟩ 5) (BoundingSphere.new ⟨1, 1, -4⟩ 1) 5 5
    (by norm_num [BoundingCircle.new, BoundingCircle.radius])
    (by norm_num [BoundingCircle.new, BoundingCircle.radius])
    (by norm_num [BoundingSphere.new, BoundingSphere.radius])
    (by norm_num [BoundingSphere.new, BoundingSphere.radius])
    (by norm_num [Vec2.length_squared, Vec2.dot, vec2_sub_def, BoundingCircle.new])
    (by norm_num)
    (by norm_num [Vec2.length_squared, Vec2.dot, vec2_sub_def, BoundingCircle.new])
    (by norm_num)
    (by norm_num [Vec3.length_squared, Vec3.dot, vec3_sub_def, BoundingSphere.new])).1

/-- Witness for C8 on the zero vectors. -/
theorem C8_direction_validation_witness :
    Dir3.new (fun q => q) ⟨Fl.fin 0, Fl.fin 0, Fl.fin 0⟩ =
        Except.error InvalidDirectionError.Zero ∧
      Dir2.new (fun q => q) ⟨Fl.fin 0, Fl.fin 0⟩ =
        Except.error InvalidDirectionError.Zero :=
  ⟨(C8_direction_validation (fun q => q) ⟨Fl.fin 0, Fl.fin 0, Fl.fin 0⟩
      ⟨Fl.fin 0, Fl.fin 0⟩ rfl).2.2.2.1 rfl,
    (C8_direction_validation (fun q => q) ⟨Fl.fin 0, Fl.fin 0, Fl.fin 0⟩
      ⟨Fl.fin 0, Fl.fin 0⟩ rfl).2.2.2.2.2.2.2 rfl⟩

end Bevy
